import Mathlib

/-!
Shallow embedding of `src/Lab_4-lcd/src/main.c` (AVR stopwatch on an LCD).

The firmware consists of `main` (startup: LCD init, custom-glyph upload,
timer arming, `sei()`, idle loop) and two interrupt service routines:
`ISR(TIMER2_OVF_vect)` (the clock state machine, fired every 16 ms, acting
every 6th tick) and `ISR(TIMER1_OVF_vect)` (the progress bar, fired every
1 s).  Machine integers are modelled as `Nat` with explicit `% 256`
(`uint8_t`) and `% 65536` (`uint16_t`) at every point where the C code can
overflow.  LCD calls are modelled as an emitted trace of `LcdOp` actions.
-/

set_option autoImplicit false

namespace Stopwatch

/-- One LCD driver call, as observed by the display.  `lcd_puts` is modelled
as the sequence of its characters' `putc` calls (the driver writes a string
one character at a time). -/
inductive LcdOp where
  | gotoxy : Nat → Nat → LcdOp
  | putc : Char → LcdOp
deriving DecidableEq, Repr

/-- Fuel-based helper for decimal conversion (the value shrinks by a factor
of 10 each step, so fuel `n` is enough for value `n`). -/
def itoaAux : Nat → Nat → List Char
  | 0, _ => []
  | fuel + 1, n =>
    if n = 0 then []
    else itoaAux fuel (n / 10) ++ [Char.ofNat (48 + n % 10)]

/-- Characters produced by avr-libc `itoa(n, string, 10)` for a
non-negative value: decimal digits, most significant first, without the
terminating NUL. -/
def itoaChars (n : Nat) : List Char :=
  if n = 0 then ['0'] else itoaAux n n

/-- Total bytes `itoa(n, string, 10)` stores into its buffer: the decimal
digits plus the terminating NUL character. -/
def itoaBytesWritten (n : Nat) : Nat :=
  (itoaChars n).length + 1

/-- Size of the conversion buffer in `ISR(TIMER2_OVF_vect)`:
`char string[2];` (main.c line 146). -/
def stringBufSize : Nat := 2

/-- The persistent (`static`) counters of `ISR(TIMER2_OVF_vect)`.
`no_of_overflows`, `tenths`, `seconds`, `minutes` are `uint8_t`;
`secPwr` is `uint16_t`. -/
@[ext]
structure ClockState where
  no_of_overflows : Nat
  tenths : Nat
  seconds : Nat
  minutes : Nat
  secPwr : Nat
deriving DecidableEq, Repr

/-- All statics are zero-initialized at power-on. -/
def clockInit : ClockState :=
  { no_of_overflows := 0, tenths := 0, seconds := 0, minutes := 0, secPwr := 0 }

/-- The counter-update part of the 100 ms branch of `ISR(TIMER2_OVF_vect)`
(main.c lines 155-188), as a straight-line data-flow transliteration of the
C statement sequence: `tenths++`; `if (tenths>9) { tenths=0; seconds++;
switch (seconds) {...} }`; `if (seconds>59) { seconds=0; minutes++; }`;
`if (minutes>59) { minutes=0; }`.  Each `let` holds the value of the
mutated C variable after the corresponding statement.  Increments of
`uint8_t` variables are mod 256; the `uint16_t` store to `secPwr` is mod
65536. -/
def clockTick (s : ClockState) : ClockState :=
  let tenths1 := (s.tenths + 1) % 256
  let tenths2 := if 9 < tenths1 then 0 else tenths1
  let seconds1 := if 9 < tenths1 then (s.seconds + 1) % 256 else s.seconds
  let secPwr1 :=
    if 9 < tenths1 then
      if seconds1 = 0 then 0
      else if seconds1 = 60 then 0
      else (seconds1 * seconds1) % 65536
    else s.secPwr
  let seconds2 := if 59 < seconds1 then 0 else seconds1
  let minutes1 := if 59 < seconds1 then (s.minutes + 1) % 256 else s.minutes
  let minutes2 := if 59 < minutes1 then 0 else minutes1
  { no_of_overflows := s.no_of_overflows, tenths := tenths2, seconds := seconds2,
    minutes := minutes2, secPwr := secPwr1 }

/-- `true` exactly when, entering the ISR from state `s`, the incremented
`no_of_overflows` reaches 6 and the 100 ms update body runs
(main.c lines 149-150). -/
def updateFires (s : ClockState) : Bool :=
  6 ≤ (s.no_of_overflows + 1) % 256

/-- The minutes field of the rendered clock string (main.c lines 191-202):
`itoa(minutes, string, 10)` then `if (minutes < 60) { lcd_putc('0');
lcd_puts(string); } else { lcd_puts(string); }`. -/
def minutesField (minutes : Nat) : List Char :=
  if minutes < 60 then '0' :: itoaChars minutes else itoaChars minutes

/-- The seconds field (main.c lines 206-216): pad with `'0'` when
`seconds < 10`. -/
def secondsField (seconds : Nat) : List Char :=
  if seconds < 10 then '0' :: itoaChars seconds else itoaChars seconds

/-- The clock-string render of `ISR(TIMER2_OVF_vect)` (main.c lines
191-221): `lcd_gotoxy(1, 0)`, minutes field, `':'`, seconds field, `'.'`,
tenths digits. -/
def renderClock (minutes seconds tenths : Nat) : List LcdOp :=
  LcdOp.gotoxy 1 0 ::
    ((minutesField minutes).map LcdOp.putc
      ++ [LcdOp.putc ':']
      ++ (secondsField seconds).map LcdOp.putc
      ++ [LcdOp.putc '.']
      ++ (itoaChars tenths).map LcdOp.putc)

/-- The seconds-squared render (main.c lines 223-225): `lcd_gotoxy(12,0)`
then `secPwr` as an unpadded decimal string. -/
def renderSecPwr (secPwr : Nat) : List LcdOp :=
  LcdOp.gotoxy 12 0 :: (itoaChars secPwr).map LcdOp.putc

/-- One invocation of `ISR(TIMER2_OVF_vect)` (main.c lines 139-228): the
new static state and the trace of LCD calls made.  `no_of_overflows++`
runs first; only when the result reaches 6 is it cleared and the 100 ms
body (counter cascade, then render of the updated counters) executed. -/
def timer2ISR (s : ClockState) : ClockState × List LcdOp :=
  let no1 := (s.no_of_overflows + 1) % 256
  if 6 ≤ no1 then
    let s1 := clockTick { s with no_of_overflows := 0 }
    (s1, renderClock s1.minutes s1.seconds s1.tenths ++ renderSecPwr s1.secPwr)
  else
    ({ s with no_of_overflows := no1 }, [])

/-- Clock state after `n` raw TIMER2 overflow interrupts from power-on. -/
def clockIter : Nat → ClockState
  | 0 => clockInit
  | n + 1 => (timer2ISR (clockIter n)).1

/-- `true` exactly when an ISR invocation entered from state `s` executes
the `case 0:` branch of the `switch (seconds)` (main.c lines 165-167): the
100 ms body must run, `tenths` must roll over, and the just-incremented
`seconds` must equal 0. -/
def caseZeroTaken (s : ClockState) : Bool :=
  updateFires s && decide (9 < (s.tenths + 1) % 256)
    && decide ((s.seconds + 1) % 256 = 0)

/-- Closed form of the clock state after `n` raw ticks: `no_of_overflows`
counts ticks mod 6, one `tenths` step happens every 6 ticks, and the
counters are the base-10/60/60 digits of the elapsed tenths, with
`secPwr` tracking the square of the seconds digit. -/
def clockSpec (n : Nat) : ClockState :=
  { no_of_overflows := n % 6,
    tenths := n / 6 % 10,
    seconds := n / 60 % 60,
    minutes := n / 3600 % 60,
    secPwr := (n / 60 % 60) * (n / 60 % 60) }

/-! ### Progress bar: `ISR(TIMER1_OVF_vect)` (main.c lines 230-247) -/

/-- One invocation of `ISR(TIMER1_OVF_vect)` with persistent counter
`prgrsBarLgth` (`uint8_t`): reset to 0 if above 4, increment, then
`lcd_gotoxy(0,1)` and write `prgrsBarLgth` copies of the filled-block
character `0xff`.  (The `static uint8_t i` loop index is reassigned to 0
before every use and has no observable effect, so it is not part of the
state.) -/
def timer1ISR (prgrsBarLgth : Nat) : Nat × List LcdOp :=
  let b1 := if 4 < prgrsBarLgth then 0 else prgrsBarLgth
  let b2 := (b1 + 1) % 256
  (b2, LcdOp.gotoxy 0 1 :: List.replicate b2 (LcdOp.putc (Char.ofNat 0xff)))

/-- `prgrsBarLgth` after `n` TIMER1 overflow interrupts from power-on. -/
def barIter : Nat → Nat
  | 0 => 0
  | n + 1 => (timer1ISR (barIter n)).1

/-! ### Startup sequencer: `main` (main.c lines 47-130) -/

/-- The two hardware timers armed by `main`. -/
inductive TimerId where
  | timer1
  | timer2
deriving DecidableEq, Repr

/-- The two period constants used in `main`: `TIM1_OVF_1SEC` and
`TIM2_OVF_16MS`. -/
inductive Period where
  | ms16
  | sec1
deriving DecidableEq, Repr

/-- The two interrupt handlers of the program. -/
inductive HandlerId where
  | clockStateMachine
  | progressIndicator
deriving DecidableEq, Repr

/-- Which handler each timer's overflow interrupt invokes:
`ISR(TIMER2_OVF_vect)` is the clock state machine and
`ISR(TIMER1_OVF_vect)` is the progress indicator. -/
def handlerOf : TimerId → HandlerId
  | TimerId.timer1 => HandlerId.progressIndicator
  | TimerId.timer2 => HandlerId.clockStateMachine

/-- The tick source driving each handler (inverse of `handlerOf`). -/
def tickSourceOf : HandlerId → TimerId
  | HandlerId.clockStateMachine => TimerId.timer2
  | HandlerId.progressIndicator => TimerId.timer1

/-- One observable step of `main`'s startup sequence.  `setCGRAM` is
`lcd_command(1 << LCD_CGRAM)` (addressing to glyph-pattern memory),
`setDDRAM` is `lcd_command(1 << LCD_DDRAM)` (addressing back to text
memory), `seiA` is `sei()`. -/
inductive StartupAct where
  | lcdInitA
  | setCGRAM
  | lcdDataA (b : Nat)
  | setDDRAM
  | gotoxyA (x y : Nat)
  | putcA (c : Nat)
  | timerConfig (t : TimerId) (p : Period)
  | timerEnable (t : TimerId)
  | seiA
deriving DecidableEq, Repr

/-- `#define N_CHARS 6` (main.c line 37). -/
def N_CHARS : Nat := 6

/-- The 32 initializer bytes of `customChar` (main.c lines 54-87): four
glyph patterns of eight rows each (left bar of width 1, 2, 3, 4). -/
def customCharInit : List Nat :=
  [0b10000, 0b10000, 0b10000, 0b10000, 0b10000, 0b10000, 0b10000, 0b10000,
   0b11000, 0b11000, 0b11000, 0b11000, 0b11000, 0b11000, 0b11000, 0b11000,
   0b11100, 0b11100, 0b11100, 0b11100, 0b11100, 0b11100, 0b11100, 0b11100,
   0b11110, 0b11110, 0b11110, 0b11110, 0b11110, 0b11110, 0b11110, 0b11110]

/-- `uint8_t customChar[N_CHARS*8] = { ... };` — a partially initialized
C array: the 32 given bytes followed by zero-initialized remainder up to
`N_CHARS * 8 = 48` elements. -/
def customChar : List Nat :=
  customCharInit ++ List.replicate (N_CHARS * 8 - customCharInit.length) 0

/-- The startup sequence executed by `main` before the idle loop
(main.c lines 47-126), in program order: LCD init, CGRAM addressing, the
glyph-upload loop `for (i = 0; i < N_CHARS*8; i++) lcd_data(customChar[i]);`,
DDRAM addressing, the four glyph demo characters at (7,1), timer arming
(`TIM1_OVF_1SEC`, `TIM1_OVF_ENABLE`, `TIM2_OVF_16MS`, `TIM2_OVF_ENABLE`),
and `sei()`. -/
def mainStartup : List StartupAct :=
  [StartupAct.lcdInitA, StartupAct.setCGRAM]
    ++ customChar.map StartupAct.lcdDataA
    ++ [StartupAct.setDDRAM,
        StartupAct.gotoxyA 7 1,
        StartupAct.putcA 0x00, StartupAct.putcA 0x01,
        StartupAct.putcA 0x02, StartupAct.putcA 0x03,
        StartupAct.timerConfig TimerId.timer1 Period.sec1,
        StartupAct.timerEnable TimerId.timer1,
        StartupAct.timerConfig TimerId.timer2 Period.ms16,
        StartupAct.timerEnable TimerId.timer2,
        StartupAct.seiA]

/-- The period a timer is configured with during startup (the first
`timerConfig` act for that timer, if any). -/
def configuredPeriod (t : TimerId) : Option Period :=
  (mainStartup.filterMap fun a =>
    match a with
    | StartupAct.timerConfig t2 p => if t2 = t then some p else none
    | _ => none).head?

/-- The glyph-pattern bytes transferred to the display during startup. -/
def glyphBytes (acts : List StartupAct) : List Nat :=
  acts.filterMap fun a =>
    match a with
    | StartupAct.lcdDataA b => some b
    | _ => none

/-- The startup acts that follow the `setDDRAM` restore of text-mode
addressing. -/
def afterRestore (acts : List StartupAct) : List StartupAct :=
  (acts.dropWhile fun a => !(a == StartupAct.setDDRAM)).drop 1

/-- `true` when the act stores a glyph-pattern byte. -/
def isGlyphData : StartupAct → Bool
  | StartupAct.lcdDataA _ => true
  | _ => false

/-! ### Helper lemmas -/

theorem t2spec_no (n : Nat) :
    ((timer2ISR (clockSpec n)).1).no_of_overflows = (n + 1) % 6 := by
  simp only [timer2ISR, clockTick, clockSpec]
  split_ifs <;> dsimp only <;> omega

theorem t2spec_tenths (n : Nat) :
    ((timer2ISR (clockSpec n)).1).tenths = (n + 1) / 6 % 10 := by
  simp only [timer2ISR, clockTick, clockSpec]
  split_ifs <;> dsimp only <;> omega

theorem t2spec_seconds (n : Nat) :
    ((timer2ISR (clockSpec n)).1).seconds = (n + 1) / 60 % 60 := by
  simp only [timer2ISR, clockTick, clockSpec]
  split_ifs <;> dsimp only <;> omega

theorem t2spec_minutes (n : Nat) :
    ((timer2ISR (clockSpec n)).1).minutes = (n + 1) / 3600 % 60 := by
  simp only [timer2ISR, clockTick, clockSpec]
  split_ifs <;> dsimp only <;> omega

theorem t2spec_secPwr (n : Nat) :
    ((timer2ISR (clockSpec n)).1).secPwr = (n + 1) / 60 % 60 * ((n + 1) / 60 % 60) := by
  by_cases hA : n % 6 = 5
  · have hfire : 6 ≤ (n % 6 + 1) % 256 := by omega
    by_cases hB : n / 6 % 10 = 9
    · -- tenths rollover: the switch recomputes secPwr
      have hs1 : (n / 60 % 60 + 1) % 256 = n / 60 % 60 + 1 := by omega
      by_cases hC : n / 60 % 60 = 59
      · -- seconds reaches 60: secPwr := 0, and the new seconds digit is 0
        have e : (n + 1) / 60 % 60 = 0 := by omega
        simp only [timer2ISR, clockTick, clockSpec, hB, hC, e]
        norm_num
        rw [if_pos hfire]
      · -- plain seconds increment: secPwr := seconds * seconds
        have hne0 : ¬ (n / 60 % 60 + 1 = 0) := by omega
        have hne60 : ¬ (n / 60 % 60 + 1 = 60) := by omega
        have e : (n + 1) / 60 % 60 = n / 60 % 60 + 1 := by omega
        have hmul : (n / 60 % 60 + 1) * (n / 60 % 60 + 1) % 65536
            = (n / 60 % 60 + 1) * (n / 60 % 60 + 1) := by
          apply Nat.mod_eq_of_lt
          calc (n / 60 % 60 + 1) * (n / 60 % 60 + 1) ≤ 60 * 60 :=
                Nat.mul_le_mul (by omega) (by omega)
            _ < 65536 := by norm_num
        simp only [timer2ISR, clockTick, clockSpec, hB, hs1, e]
        norm_num
        simp only [if_neg hne0, if_neg hne60, hmul]
        rw [if_pos hfire]
    · -- no tenths rollover: secPwr untouched
      have hnr : ¬ (9 < (n / 6 % 10 + 1) % 256) := by omega
      have e : (n + 1) / 60 = n / 60 := by omega
      simp only [timer2ISR, clockTick, clockSpec, if_pos hfire, if_neg hnr, e]
  · -- ticks 1-5 of the group: state untouched apart from the counter
    have hnof : ¬ (6 ≤ (n % 6 + 1) % 256) := by omega
    have e : (n + 1) / 60 = n / 60 := by omega
    simp only [timer2ISR, clockSpec, if_neg hnof, e]

theorem timer2ISR_state_spec (n : Nat) :
    (timer2ISR (clockSpec n)).1 = clockSpec (n + 1) := by
  refine ClockState.ext ?_ ?_ ?_ ?_ ?_
  · rw [t2spec_no]; rfl
  · rw [t2spec_tenths]; rfl
  · rw [t2spec_seconds]; rfl
  · rw [t2spec_minutes]; rfl
  · rw [t2spec_secPwr]; rfl

theorem clockIter_eq (n : Nat) : clockIter n = clockSpec n := by
  induction n with
  | zero => rfl
  | succ n ih => rw [clockIter, ih, timer2ISR_state_spec]

theorem barIter_succ (n : Nat) : barIter (n + 1) = n % 5 + 1 := by
  induction n with
  | zero => rfl
  | succ n ih =>
    have h5 : n % 5 < 5 := Nat.mod_lt _ (by norm_num)
    rw [barIter, ih]
    by_cases h : n % 5 = 4
    · simp only [timer1ISR, h]
      norm_num
      omega
    · have h4 : ¬ (4 < n % 5 + 1) := by omega
      simp only [timer1ISR, if_neg h4]
      omega

/-! ### Claim theorems -/

/-- C1: the handlers are claimed to have no failure paths, with every
decimal conversion staying inside the 2-byte buffer `string`.  The code
refutes this: at the reachable state with `seconds = 59` (raw tick 3540)
the handler converts `secPwr = 3481`, which makes `itoa` store 5 bytes
(4 digits plus NUL) into the 2-byte buffer; already the 2-digit `seconds`
conversion stores 3 bytes. -/
theorem c1_conversion_overflows_buffer :
    stringBufSize = 2
    ∧ (clockIter 3540).seconds = 59
    ∧ (clockIter 3540).secPwr = 3481
    ∧ itoaBytesWritten ((clockIter 3540).secPwr) = 5
    ∧ stringBufSize < itoaBytesWritten ((clockIter 3540).secPwr)
    ∧ itoaBytesWritten ((clockIter 3540).seconds) = 3
    ∧ stringBufSize < itoaBytesWritten ((clockIter 3540).seconds) := by
  rw [clockIter_eq]
  decide

/-- C2: `secPwr` is recomputed only on a tenths rollover, to 0 when the
just-incremented seconds is 0 or 60 and to its square otherwise; in every
reachable state it equals `seconds * seconds`, so it is 3481 exactly at
`seconds = 59` and 0 whenever `seconds` has wrapped back to 0 — never
stale across the minute boundary. -/
theorem c2_secPwr_recompute (n : Nat) :
    (clockIter n).secPwr = (clockIter n).seconds * (clockIter n).seconds
    ∧ ((clockIter n).seconds = 59 → (clockIter n).secPwr = 3481)
    ∧ ((clockIter n).seconds = 0 → (clockIter n).secPwr = 0)
    ∧ (∀ t : ClockState, ¬ 9 < (t.tenths + 1) % 256 → (clockTick t).secPwr = t.secPwr)
    ∧ (updateFires (clockIter n) = false →
        ((timer2ISR (clockIter n)).1).secPwr = (clockIter n).secPwr)
    ∧ ((clockIter n).tenths = 9 →
        (clockTick (clockIter n)).secPwr =
          if (clockIter n).seconds + 1 = 0 ∨ (clockIter n).seconds + 1 = 60 then 0
          else ((clockIter n).seconds + 1) * ((clockIter n).seconds + 1)) := by
  have hc : n / 60 % 60 < 60 := Nat.mod_lt _ (by norm_num)
  refine ⟨?_, ?_, ?_, ?_, ?_, ?_⟩
  · rw [clockIter_eq]; rfl
  · intro h
    rw [clockIter_eq] at h ⊢
    simp only [clockSpec] at h ⊢
    rw [h]
  · intro h
    rw [clockIter_eq] at h ⊢
    simp only [clockSpec] at h ⊢
    rw [h]
  · intro t ht
    simp [clockTick, ht]
  · intro h
    have h' : ¬ 6 ≤ ((clockIter n).no_of_overflows + 1) % 256 := by
      simpa [updateFires] using h
    simp [timer2ISR, if_neg h']
  · intro h9
    rw [clockIter_eq] at h9 ⊢
    simp only [clockSpec] at h9 ⊢
    have hs1 : (n / 60 % 60 + 1) % 256 = n / 60 % 60 + 1 := by omega
    by_cases hC : n / 60 % 60 = 59
    · simp [clockTick, clockSpec, h9, hC]
    · have hne0 : ¬ (n / 60 % 60 + 1 = 0) := by omega
      have hne60 : ¬ (n / 60 % 60 + 1 = 60) := by omega
      have hmul : (n / 60 % 60 + 1) * (n / 60 % 60 + 1) % 65536
          = (n / 60 % 60 + 1) * (n / 60 % 60 + 1) := by
        apply Nat.mod_eq_of_lt
        calc (n / 60 % 60 + 1) * (n / 60 % 60 + 1) ≤ 60 * 60 :=
              Nat.mul_le_mul (by omega) (by omega)
          _ < 65536 := by norm_num
      simp [clockTick, clockSpec, h9, hs1, hne0, hne60, hmul]

/-- Witness for C2 at concrete reachable states: raw tick 3540 is the
first time `seconds = 59` (so `secPwr = 3481`), tick 3534 is the preceding
state with `tenths = 9`, whose rollover stores `59 * 59`. -/
theorem c2_secPwr_recompute_witness :
    (clockIter 3540).seconds = 59
    ∧ (clockIter 3540).secPwr = 3481
    ∧ (clockIter 3534).tenths = 9
    ∧ (clockTick (clockIter 3534)).secPwr =
        if (clockIter 3534).seconds + 1 = 0 ∨ (clockIter 3534).seconds + 1 = 60 then 0
        else ((clockIter 3534).seconds + 1) * ((clockIter 3534).seconds + 1) := by
  have h59 : (clockIter 3540).seconds = 59 := by rw [clockIter_eq]; decide
  have h9 : (clockIter 3534).tenths = 9 := by rw [clockIter_eq]; decide
  exact ⟨h59, (c2_secPwr_recompute 3540).2.1 h59, h9,
    (c2_secPwr_recompute 3534).2.2.2.2.2 h9⟩

/-- C3: starting from the zero-initialized state, the 100 ms body runs on
exactly every 6th invocation (the `(n+1)`-th invocation fires iff
`(n+1) % 6 = 0`); on non-firing invocations the ISR emits no LCD call and
changes nothing but its private overflow counter. -/
theorem c3_update_every_sixth (n : Nat) :
    (clockIter n).no_of_overflows = n % 6
    ∧ (updateFires (clockIter n) = true ↔ (n + 1) % 6 = 0)
    ∧ (updateFires (clockIter n) = false →
        (timer2ISR (clockIter n)).2 = []
        ∧ (timer2ISR (clockIter n)).1
            = { clockIter n with
                no_of_overflows := ((clockIter n).no_of_overflows + 1) % 256 }) := by
  refine ⟨by rw [clockIter_eq]; rfl, ?_, ?_⟩
  · rw [clockIter_eq]
    simp only [updateFires, clockSpec, decide_eq_true_eq]
    omega
  · intro h
    have h' : ¬ 6 ≤ ((clockIter n).no_of_overflows + 1) % 256 := by
      simpa [updateFires] using h
    exact ⟨by simp [timer2ISR, if_neg h'], by simp [timer2ISR, if_neg h']⟩

/-- Witness for C3 at the first invocation (tick 0 → 1): the update does
not fire, no LCD call is emitted, and only the overflow counter advances. -/
theorem c3_update_every_sixth_witness :
    updateFires (clockIter 0) = false
    ∧ (timer2ISR (clockIter 0)).2 = []
    ∧ (timer2ISR (clockIter 0)).1
        = { clockIter 0 with
            no_of_overflows := ((clockIter 0).no_of_overflows + 1) % 256 } := by
  have hf : updateFires (clockIter 0) = false := by decide
  have h := (c3_update_every_sixth 0).2.2 hf
  exact ⟨hf, h.1, h.2⟩

/-- C4: on each 100 ms update from a reachable state the counters cascade:
`tenths` in 0..8 just increments (seconds, minutes, secPwr untouched);
`tenths = 9` clears tenths and increments seconds; seconds passing 59
clears seconds and increments minutes; minutes passing 59 clears minutes
with no further carry. -/
theorem c4_counter_cascade (n : Nat) :
    ((clockIter n).tenths ≤ 8 →
        clockTick (clockIter n)
          = { clockIter n with tenths := (clockIter n).tenths + 1 })
    ∧ ((clockIter n).tenths = 9 ∧ (clockIter n).seconds ≤ 58 →
        (clockTick (clockIter n)).tenths = 0
        ∧ (clockTick (clockIter n)).seconds = (clockIter n).seconds + 1
        ∧ (clockTick (clockIter n)).minutes = (clockIter n).minutes)
    ∧ ((clockIter n).tenths = 9 ∧ (clockIter n).seconds = 59
        ∧ (clockIter n).minutes ≤ 58 →
        (clockTick (clockIter n)).tenths = 0
        ∧ (clockTick (clockIter n)).seconds = 0
        ∧ (clockTick (clockIter n)).minutes = (clockIter n).minutes + 1)
    ∧ ((clockIter n).tenths = 9 ∧ (clockIter n).seconds = 59
        ∧ (clockIter n).minutes = 59 →
        (clockTick (clockIter n)).tenths = 0
        ∧ (clockTick (clockIter n)).seconds = 0
        ∧ (clockTick (clockIter n)).minutes = 0) := by
  have hc : n / 60 % 60 < 60 := Nat.mod_lt _ (by norm_num)
  have hd : n / 3600 % 60 < 60 := Nat.mod_lt _ (by norm_num)
  refine ⟨?_, ?_, ?_, ?_⟩
  · intro h
    rw [clockIter_eq] at h ⊢
    simp only [clockSpec] at h ⊢
    have h10 : (n / 6 % 10 + 1) % 256 = n / 6 % 10 + 1 := by omega
    have hnr : ¬ 9 < n / 6 % 10 + 1 := by omega
    have hsle : ¬ 59 < n / 60 % 60 := by omega
    have hmle : ¬ 59 < n / 3600 % 60 := by omega
    simp [clockTick, h10, hnr, hsle, hmle]
  · rintro ⟨h9, h58⟩
    rw [clockIter_eq] at h9 h58 ⊢
    simp only [clockSpec] at h9 h58 ⊢
    have hs1 : (n / 60 % 60 + 1) % 256 = n / 60 % 60 + 1 := by omega
    have hle : ¬ 59 < n / 60 % 60 + 1 := by omega
    have hmle : ¬ 59 < n / 3600 % 60 := by omega
    simp [clockTick, h9, hs1, hle, hmle]
  · rintro ⟨h9, hC, h58m⟩
    rw [clockIter_eq] at h9 hC h58m ⊢
    simp only [clockSpec] at h9 hC h58m ⊢
    have hd1 : (n / 3600 % 60 + 1) % 256 = n / 3600 % 60 + 1 := by omega
    have hl : ¬ 59 < n / 3600 % 60 + 1 := by omega
    simp [clockTick, h9, hC, hd1, hl]
  · rintro ⟨h9, hC, hD⟩
    rw [clockIter_eq] at h9 hC hD ⊢
    simp only [clockSpec] at h9 hC hD ⊢
    simp [clockTick, h9, hC, hD]

/-- Witness for C4, exercising all four cascade branches at concrete
reachable states: tick 0 (plain tenths step), tick 54 (first tenths
rollover), tick 3594 (first seconds wrap), tick 215994 (first minutes
wrap). -/
theorem c4_counter_cascade_witness :
    (clockTick (clockIter 0)
        = { clockIter 0 with tenths := (clockIter 0).tenths + 1 })
    ∧ ((clockTick (clockIter 54)).tenths = 0
        ∧ (clockTick (clockIter 54)).seconds = (clockIter 54).seconds + 1
        ∧ (clockTick (clockIter 54)).minutes = (clockIter 54).minutes)
    ∧ ((clockTick (clockIter 3594)).tenths = 0
        ∧ (clockTick (clockIter 3594)).seconds = 0
        ∧ (clockTick (clockIter 3594)).minutes = (clockIter 3594).minutes + 1)
    ∧ ((clockTick (clockIter 215994)).tenths = 0
        ∧ (clockTick (clockIter 215994)).seconds = 0
        ∧ (clockTick (clockIter 215994)).minutes = 0) := by
  refine ⟨(c4_counter_cascade 0).1 (by rw [clockIter_eq]; decide),
    (c4_counter_cascade 54).2.1 ⟨?_, ?_⟩,
    (c4_counter_cascade 3594).2.2.1 ⟨?_, ?_, ?_⟩,
    (c4_counter_cascade 215994).2.2.2 ⟨?_, ?_, ?_⟩⟩ <;>
      rw [clockIter_eq] <;> decide

/-- C5: the claim that the minutes field is always exactly two zero-padded
characters fails on the code: the pad condition is `minutes < 60` (always
true), so every two-digit minutes value gets a spurious leading `'0'`.
At the reachable state `minutes = 10` (raw tick 36000) the field is the
three characters `"010"`. -/
theorem c5_minutes_field_three_chars :
    (clockIter 36000).minutes = 10
    ∧ minutesField 10 = ['0', '1', '0']
    ∧ (minutesField 10).length = 3 := by
  refine ⟨by rw [clockIter_eq]; decide, by decide, by decide⟩

/-- C6 counterexample: the claim has the two periods swapped.  The clock
state machine's tick source (TIMER2, via `ISR(TIMER2_OVF_vect)`) is not
armed with the 1 s constant, nor the progress indicator's (TIMER1) with
16 ms. -/
theorem c6_periods_swapped_counterexample :
    ¬ (configuredPeriod (tickSourceOf HandlerId.clockStateMachine) = some Period.sec1
       ∧ configuredPeriod (tickSourceOf HandlerId.progressIndicator) = some Period.ms16) := by
  decide

/-- C6 amended: the startup arms the clock state machine's tick source
(TIMER2) with the 16 ms constant `TIM2_OVF_16MS` and the progress
indicator's tick source (TIMER1) with the 1 s constant `TIM1_OVF_1SEC`. -/
theorem c6_periods_amended :
    configuredPeriod (tickSourceOf HandlerId.clockStateMachine) = some Period.ms16
    ∧ configuredPeriod (tickSourceOf HandlerId.progressIndicator) = some Period.sec1
    ∧ handlerOf TimerId.timer2 = HandlerId.clockStateMachine
    ∧ handlerOf TimerId.timer1 = HandlerId.progressIndicator := by
  decide

/-- C7: from the reset state, the `(n+1)`-th progress-bar invocation sets
`prgrsBarLgth` to `n % 5 + 1` (so the lengths cycle 1,2,3,4,5,1,2,…) and
its whole LCD trace is `lcd_gotoxy(0,1)` followed by exactly that many
`0xff` filled-block characters — nothing else, in particular no clearing
of cells from a previous longer bar. -/
theorem c7_progress_bar (n : Nat) :
    barIter (n + 1) = n % 5 + 1
    ∧ (timer1ISR (barIter n)).2
        = LcdOp.gotoxy 0 1 ::
            List.replicate (n % 5 + 1) (LcdOp.putc (Char.ofNat 0xff)) := by
  refine ⟨barIter_succ n, ?_⟩
  have h : (timer1ISR (barIter n)).2
      = LcdOp.gotoxy 0 1 ::
          List.replicate ((timer1ISR (barIter n)).1) (LcdOp.putc (Char.ofNat 0xff)) := rfl
  rw [h, show (timer1ISR (barIter n)).1 = barIter (n + 1) from rfl, barIter_succ]

/-- C8: rendering (minutes=5, seconds=7, tenths=3) writes exactly
`"05:07.3"` after positioning the cursor at column 1, row 0, and rendering
(0,0,0) writes exactly `"00:00.0"`. -/
theorem c8_render_concrete :
    renderClock 5 7 3
      = LcdOp.gotoxy 1 0 :: (("05:07.3").toList.map LcdOp.putc)
    ∧ renderClock 0 0 0
      = LcdOp.gotoxy 1 0 :: (("00:00.0").toList.map LcdOp.putc) := by
  decide

/-- C9 counterexample: the startup loop runs for `N_CHARS*8 = 48`
iterations, not 32, so the number of pattern bytes uploaded to glyph
memory is not the claimed 4 glyphs × 8 rows. -/
theorem c9_glyph_upload_counterexample :
    ¬ ((glyphBytes mainStartup).length = 32) := by
  decide

/-- C9 amended: the startup uploads `N_CHARS * 8 = 48` pattern bytes — the
32 defined rows of the 4 custom glyphs followed by 16 zero bytes from the
partially initialized array — and then restores addressing to text memory
(DDRAM); the restore precedes `sei()`, and no glyph byte is transferred
after it, so text-mode addressing is in effect before any interrupt-driven
write can touch the display. -/
theorem c9_glyph_upload_amended :
    (glyphBytes mainStartup).length = N_CHARS * 8
    ∧ N_CHARS * 8 = 48
    ∧ glyphBytes mainStartup = customCharInit ++ List.replicate 16 0
    ∧ customCharInit.length = 32
    ∧ ((afterRestore mainStartup).all fun a => !(isGlyphData a)) = true
    ∧ StartupAct.seiA ∈ afterRestore mainStartup := by
  decide

/-- C10: the `case 0:` branch of the `switch (seconds)` is unreachable
from the zero-initialized state: in every reachable state `seconds ≤ 59`,
so the scrutinized just-incremented value lies in 1..60 and is never 0. -/
theorem c10_case_zero_unreachable (n : Nat) :
    caseZeroTaken (clockIter n) = false
    ∧ (clockIter n).seconds ≤ 59
    ∧ 1 ≤ ((clockIter n).seconds + 1) % 256
    ∧ ((clockIter n).seconds + 1) % 256 ≤ 60 := by
  rw [clockIter_eq]
  have hc : n / 60 % 60 < 60 := Nat.mod_lt _ (by norm_num)
  have hz : ¬ ((n / 60 % 60 + 1) % 256 = 0) := by omega
  refine ⟨by simp [caseZeroTaken, clockSpec, hz], ?_, ?_, ?_⟩ <;>
    simp only [clockSpec] <;> omega

end Stopwatch
